import Mathlib

/-!
Shallow embedding of the data-normalization and filtering pipeline of the
Smart City IoT dashboard (src/app.py), together with theorems settling the
specification claims about it.

Conventions of the embedding:
* a pandas column cell that may be missing (NaN / NaT) is an `Option`;
  every pandas comparison against a missing value is `false`, which the
  `Option` pattern matches below reproduce;
* numeric cell values are rationals (`ℚ`), timestamps are modelled as
  rationals (an epoch offset — only their ordering matters);
* a data frame is a `List Row` in its row order; boolean-mask filtering in
  pandas is order-preserving selection, i.e. `List.filter`.
-/

/-- One record of the canonical dataset: the semantic fields the filter
engine and KPI block read.  `none` is a missing value (NaN / NaT). -/
structure Row where
  city : Option String
  weather : Option String
  ts : Option ℚ
  aqi : Option ℚ
  deriving Repr, DecidableEq

/-- Which semantic fields resolved to a physical column (`find_col`
returned a name).  In app.py a bound field is a non-`None` column-name
string, which is truthy even when every value in the column is missing. -/
structure Bindings where
  cityBound : Bool
  weatherBound : Bool
  tsBound : Bool
  aqiBound : Bool
  deriving Repr, DecidableEq

/-- The filter-control values read from the sidebar, one snapshot per
filter pass: `selected_city` (`"All"` = no restriction), the weather
multiselect (`none` when no weather column exists, mirroring
`selected_weather = None`), the date range already converted to the
`start_dt`/`end_dt` pair of app.py lines 197–198, and the AQI slider. -/
structure Criteria where
  selectedCity : String
  selectedWeather : Option (List String)
  dateRange : Option (ℚ × ℚ)
  aqiRange : ℚ × ℚ
  deriving Repr, DecidableEq

/-- app.py lines 188–189: `if selected_city != "All" and col_city:` then
keep rows with `df_filtered[col_city] == selected_city` (a pandas `==`
against NaN is false). -/
def cityStep (b : Bindings) (c : Criteria) (df : List Row) : List Row :=
  if c.selectedCity ≠ "All" ∧ b.cityBound then
    df.filter (fun r => r.city == some c.selectedCity)
  else df

/-- app.py lines 191–193: `if selected_weather and weather_col:` — an
empty Python list is falsy, so the membership filter runs only when the
selection is non-empty and the weather field is bound; `isin` is false on
a missing value. -/
def weatherStep (b : Bindings) (c : Criteria) (df : List Row) : List Row :=
  match c.selectedWeather with
  | none => df
  | some ws =>
    if ws ≠ [] ∧ b.weatherBound then
      df.filter (fun r =>
        match r.weather with
        | some w => ws.contains w
        | none => false)
    else df

/-- app.py lines 195–199: `if date_range and col_timestamp:` then keep
rows with `start_dt <= ts <= end_dt`; a missing (NaT) timestamp fails
both comparisons. -/
def dateStep (b : Bindings) (c : Criteria) (df : List Row) : List Row :=
  match c.dateRange with
  | none => df
  | some (s, e) =>
    if b.tsBound then
      df.filter (fun r =>
        match r.ts with
        | some t => decide (s ≤ t) && decide (t ≤ e)
        | none => false)
    else df

/-- app.py lines 201–202: `if col_aqi:` then keep rows with
`aqi_slider[0] <= aqi <= aqi_slider[1]`; a missing (NaN) AQI fails both
comparisons. -/
def aqiStep (b : Bindings) (c : Criteria) (df : List Row) : List Row :=
  if b.aqiBound then
    df.filter (fun r =>
      match r.aqi with
      | some a => decide (c.aqiRange.1 ≤ a) && decide (a ≤ c.aqiRange.2)
      | none => false)
  else df

/-- app.py lines 186–202: the whole filter pass, starting from a copy of
the canonical dataset and applying the four masks in source order. -/
def filterEngine (b : Bindings) (c : Criteria) (df : List Row) : List Row :=
  aqiStep b c (dateStep b c (weatherStep b c (cityStep b c df)))

/-- app.py lines 37–47 (`aqi_status`): label and color of a numeric AQI,
with inclusive upper thresholds 50 / 100 / 200 / 300. -/
def aqi_status (aqi : ℚ) : String × String :=
  if aqi ≤ 50 then ("Good", "#2ECC71")
  else if aqi ≤ 100 then ("Moderate", "#F1C40F")
  else if aqi ≤ 200 then ("Unhealthy", "#E67E22")
  else if aqi ≤ 300 then ("Very Unhealthy", "#E74C3C")
  else ("Hazardous", "#8E44AD")

/-- Severity rank of a classifier label, in band order. -/
def sevRank (label : String) : ℕ :=
  if label = "Good" then 0
  else if label = "Moderate" then 1
  else if label = "Unhealthy" then 2
  else if label = "Very Unhealthy" then 3
  else 4

/-- Python `int(...)` truncation toward zero of a rational. -/
def ratTrunc (q : ℚ) : ℤ :=
  if q < 0 then ⌈q⌉ else ⌊q⌋

/-- app.py lines 212–215: `int(df_filtered[col_aqi].dropna().iloc[-1])`,
`None` when the AQI field is unbound or no non-missing value exists (the
`except` branch). -/
def currentAqi (b : Bindings) (df : List Row) : Option ℤ :=
  if b.aqiBound then (df.filterMap Row.aqi).getLast?.map ratTrunc
  else none

/-- app.py lines 240–241: the hazardous-AQI alert fires exactly when
`current_aqi is not None and current_aqi > 200`. -/
def alertShown (b : Bindings) (df : List Row) : Bool :=
  match currentAqi b df with
  | some a => decide (200 < a)
  | none => false

/-- app.py lines 83–87 (`find_col`): first name of the candidate list that
is present among the cleaned column names, else `None`. -/
def find_col (cols : List String) (possible : List String) : Option String :=
  possible.find? (fun n => cols.contains n)

/-- Character pipeline of app.py lines 17–24 (`clean_columns`), per
column name: drop `Â`, map `µ` to `u`, map `³` to `3`, drop spaces.
Single-character `str.replace` is exactly a character map / removal. -/
def cleanChars (l : List Char) : List Char :=
  (((l.filter (fun c => c ≠ 'Â')).map
      (fun c => if c = 'µ' then 'u' else c)).map
      (fun c => if c = '³' then '3' else c)).filter (fun c => c ≠ ' ')

/-- app.py lines 17–24 (`clean_columns`) on one column name. -/
def clean_columns (s : String) : String :=
  String.mk (cleanChars s.data)

/-- app.py lines 113–119: the fixed city → reference coordinate table. -/
def city_coords : List (String × ℚ × ℚ) :=
  [("Delhi", (28.7041, 77.1025)),
   ("Bangalore", (12.9716, 77.5946)),
   ("Mumbai", (19.0760, 72.8777)),
   ("Chennai", (13.0827, 80.2707)),
   ("Kolkata", (22.5726, 88.3639))]

/-- First whitespace-delimited token of a string, Python `s.split()[0]`:
drop leading whitespace, then take the maximal run of non-whitespace. -/
def firstToken (s : String) : String :=
  String.mk ((s.data.dropWhile (fun c => c.isWhitespace)).takeWhile
    (fun c => ¬ c.isWhitespace))

/-- app.py lines 125–134, for one record: look the first token of the
city value up with default `(0,0)`; jitter is the sampled
`random.uniform(-0.02, 0.02)` pair, passed here explicitly; a `(0,0)`
result of the lookup (unknown city) yields missing coordinates. -/
def geoCoord (city : String) (jlat jlon : ℚ) : Option ℚ × Option ℚ :=
  let base :=
    ((city_coords.find? (fun p => p.1 == firstToken city)).map
      (fun p => p.2)).getD (0, 0)
  if base = ((0 : ℚ), (0 : ℚ)) then (none, none)
  else (some (base.1 + jlat), some (base.2 + jlon))

-- Sanity examples (engine semantics on tiny concrete inputs).
example :
    filterEngine ⟨true, false, false, true⟩
      ⟨"Delhi", none, none, (0, 500)⟩
      [⟨some "Delhi", none, none, some 45⟩,
       ⟨some "Mumbai", none, none, some 220⟩] =
      [⟨some "Delhi", none, none, some 45⟩] := by decide

example : aqi_status 45 = ("Good", "#2ECC71") := by decide

example : aqi_status 220 = ("Very Unhealthy", "#E74C3C") := by decide

/-! ## Classifier claims -/

/-- C3: the AQI classifier is monotonic in severity — for all numeric
`x ≤ y` the severity rank of `aqi_status x` is at most that of
`aqi_status y` — and the upper thresholds 50, 100, 200, 300 are
inclusive (each boundary value falls in the lower band); in particular
45 classifies as "Good" and 220 as "Very Unhealthy". -/
theorem aqi_status_monotone_and_boundaries :
    (∀ x y : ℚ, x ≤ y →
      sevRank (aqi_status x).1 ≤ sevRank (aqi_status y).1) ∧
    (aqi_status 50).1 = "Good" ∧
    (aqi_status 100).1 = "Moderate" ∧
    (aqi_status 200).1 = "Unhealthy" ∧
    (aqi_status 300).1 = "Very Unhealthy" ∧
    (aqi_status 45).1 = "Good" ∧
    (aqi_status 220).1 = "Very Unhealthy" := by
  refine ⟨?_, by decide, by decide, by decide, by decide, by decide, by decide⟩
  intro x y h
  unfold aqi_status
  split_ifs <;> first | decide | linarith

/-- Witness for C3 at `x = 45`, `y = 220`. -/
theorem aqi_status_monotone_witness :
    sevRank (aqi_status 45).1 ≤ sevRank (aqi_status 220).1 :=
  aqi_status_monotone_and_boundaries.1 45 220 (by norm_num)

/-- C9: the classifier is total on all numeric inputs and does not clamp
or reject negatives: every `x ≤ 50`, negatives included, yields the
label "Good" with the "Good" color token. -/
theorem aqi_status_low_inputs_good (x : ℚ) (h : x ≤ 50) :
    aqi_status x = ("Good", "#2ECC71") := by
  unfold aqi_status
  rw [if_pos h]

/-- Witness for C9 at the negative input `-10`. -/
theorem aqi_status_low_inputs_good_witness :
    aqi_status (-10) = ("Good", "#2ECC71") :=
  aqi_status_low_inputs_good (-10) (by norm_num)

/-! ## Column cleaning (Schema Resolver) -/

/-- Mapping a function that fixes every element of a list is the
identity on it. -/
theorem map_id_of_mem {α : Type} {f : α → α} {l : List α}
    (h : ∀ a ∈ l, f a = a) : l.map f = l := by
  induction l with
  | nil => rfl
  | cons x xs ih =>
    simp only [List.map_cons, h x (List.mem_cons_self x xs),
      ih (fun a ha => h a (List.mem_cons_of_mem x ha))]

/-- Filtering by a predicate every element satisfies is the identity. -/
theorem filter_eq_self_of_mem {α : Type} {p : α → Bool} {l : List α}
    (h : ∀ a ∈ l, p a = true) : l.filter p = l :=
  List.filter_eq_self.mpr h

/-- Every character surviving the cleaning pipeline is none of the four
replaced characters. -/
theorem cleanChars_mem {l : List Char} {c : Char} (hc : c ∈ cleanChars l) :
    c ≠ 'Â' ∧ c ≠ 'µ' ∧ c ≠ '³' ∧ c ≠ ' ' := by
  unfold cleanChars at hc
  simp only [List.mem_filter, List.mem_map, decide_eq_true_eq] at hc
  obtain ⟨⟨a, ⟨b, ⟨hbl, hbA⟩, rfl⟩, rfl⟩, hsp⟩ := hc
  refine ⟨?_, ?_, ?_, hsp⟩ <;> split_ifs <;> simp_all

/-- A list of characters already free of the four replaced characters is
a fixed point of the cleaning pipeline. -/
theorem cleanChars_fixed {L : List Char}
    (h : ∀ c ∈ L, c ≠ 'Â' ∧ c ≠ 'µ' ∧ c ≠ '³' ∧ c ≠ ' ') :
    cleanChars L = L := by
  have h1 : L.filter (fun c => c ≠ 'Â') = L :=
    filter_eq_self_of_mem (fun a ha => by simp [(h a ha).1])
  have h2 : L.map (fun c => if c = 'µ' then 'u' else c) = L :=
    map_id_of_mem (fun a ha => if_neg (h a ha).2.1)
  have h3 : L.map (fun c => if c = '³' then '3' else c) = L :=
    map_id_of_mem (fun a ha => if_neg (h a ha).2.2.1)
  have h4 : L.filter (fun c => c ≠ ' ') = L :=
    filter_eq_self_of_mem (fun a ha => by simp [(h a ha).2.2.2])
  unfold cleanChars
  rw [h1, h2, h3, h4]

/-- The cleaning pipeline is idempotent at the character-list level. -/
theorem cleanChars_idem (l : List Char) :
    cleanChars (cleanChars l) = cleanChars l :=
  cleanChars_fixed (fun _ hc => cleanChars_mem hc)

/-- C8: column-name cleaning removes the encoding artifact `Â`,
normalizes the micro and cubic glyphs to ASCII (no `µ` or `³` remains),
removes all spaces, and is idempotent: `clean(clean(x)) = clean(x)` for
every column-name string `x`. -/
theorem clean_columns_removes_and_idempotent (s : String) :
    clean_columns (clean_columns s) = clean_columns s ∧
    'Â' ∉ (clean_columns s).data ∧
    'µ' ∉ (clean_columns s).data ∧
    '³' ∉ (clean_columns s).data ∧
    ' ' ∉ (clean_columns s).data := by
  refine ⟨congrArg String.mk (cleanChars_idem s.data), ?_, ?_, ?_, ?_⟩ <;>
    intro h
  · exact (cleanChars_mem h).1 rfl
  · exact (cleanChars_mem h).2.1 rfl
  · exact (cleanChars_mem h).2.2.1 rfl
  · exact (cleanChars_mem h).2.2.2 rfl

/-! ## Alias resolution -/

/-- C7: alias resolution is order-stable and deterministic — when the
candidate list splits as `pre ++ n :: post` with no name of `pre`
present among the cleaned columns and `n` present, `find_col` binds `n`
(the first candidate in priority order); when no candidate is present it
returns `none` rather than raising. -/
theorem find_col_first_match_or_none :
    (∀ (cols pre post : List String) (n : String),
      n ∈ cols → (∀ m ∈ pre, m ∉ cols) →
      find_col cols (pre ++ n :: post) = some n) ∧
    (∀ (cols names : List String), (∀ n ∈ names, n ∉ cols) →
      find_col cols names = none) := by
  constructor
  · intro cols pre post n hn hpre
    induction pre with
    | nil =>
      exact List.find?_cons_of_pos _ (by simpa using hn)
    | cons m pre ih =>
      rw [List.cons_append, find_col,
        List.find?_cons_of_neg _
          (by simpa using hpre m (List.mem_cons_self m pre))]
      exact ih (fun a ha => hpre a (List.mem_cons_of_mem m ha))
  · intro cols names hnone
    induction names with
    | nil => rfl
    | cons m names ih =>
      rw [find_col,
        List.find?_cons_of_neg _
          (by simpa using hnone m (List.mem_cons_self m names))]
      exact ih (fun a ha => hnone a (List.mem_cons_of_mem m ha))

/-- Witness for C7: with columns `["Timestamp", "City"]`, the candidate
list `["Town", "City", "city"]` binds `"City"`; a candidate list with no
present name yields `none`. -/
theorem find_col_first_match_or_none_witness :
    find_col ["Timestamp", "City"] (["Town"] ++ "City" :: ["city"]) =
      some "City" ∧
    find_col ["Timestamp", "City"] ["Weather", "weather"] = none :=
  ⟨find_col_first_match_or_none.1 ["Timestamp", "City"] ["Town"] ["city"]
      "City" (by decide) (by decide),
    find_col_first_match_or_none.2 ["Timestamp", "City"]
      ["Weather", "weather"] (by decide)⟩

/-! ## Filter engine: purity and order preservation -/

/-- The city mask keeps a subsequence of its input. -/
theorem cityStep_sublist (b : Bindings) (c : Criteria) (df : List Row) :
    (cityStep b c df).Sublist df := by
  unfold cityStep
  split
  · exact List.filter_sublist _
  · exact List.Sublist.refl _

/-- The weather mask keeps a subsequence of its input. -/
theorem weatherStep_sublist (b : Bindings) (c : Criteria) (df : List Row) :
    (weatherStep b c df).Sublist df := by
  unfold weatherStep
  split
  · exact List.Sublist.refl _
  · split
    · exact List.filter_sublist _
    · exact List.Sublist.refl _

/-- The date mask keeps a subsequence of its input. -/
theorem dateStep_sublist (b : Bindings) (c : Criteria) (df : List Row) :
    (dateStep b c df).Sublist df := by
  unfold dateStep
  split
  · exact List.Sublist.refl _
  · split
    · exact List.filter_sublist _
    · exact List.Sublist.refl _

/-- The AQI mask keeps a subsequence of its input. -/
theorem aqiStep_sublist (b : Bindings) (c : Criteria) (df : List Row) :
    (aqiStep b c df).Sublist df := by
  unfold aqiStep
  split
  · exact List.filter_sublist _
  · exact List.Sublist.refl _

/-- C5: filtering is a pure function of (dataset, criteria) — in this
embedding the same application literally denotes the same value, so two
passes with identical arguments are identical and the input list is
never mutated — and the output is a subsequence of the canonical
dataset: rows appear in their original relative order, never
reordered. -/
theorem filterEngine_deterministic_order_preserving
    (b : Bindings) (c : Criteria) (df : List Row) :
    filterEngine b c df = filterEngine b c df ∧
    (filterEngine b c df).Sublist df :=
  ⟨rfl,
    ((aqiStep_sublist b c _).trans
      ((dateStep_sublist b c _).trans
        ((weatherStep_sublist b c _).trans (cityStep_sublist b c df))))⟩

/-! ## Weather filter (C1) -/

/-- An absent weather selection (`selected_weather = None`) skips the
weather mask. -/
theorem weatherStep_none {b : Bindings} {c : Criteria} {df : List Row}
    (h : c.selectedWeather = none) : weatherStep b c df = df := by
  simp [weatherStep, h]

/-- An empty weather selection is falsy in Python, so the weather mask
is skipped, not applied. -/
theorem weatherStep_empty {b : Bindings} {c : Criteria} {df : List Row}
    (h : c.selectedWeather = some []) : weatherStep b c df = df := by
  simp [weatherStep, h]

/-- A selection containing every weather value present keeps every row
whose weather value is present. -/
theorem weatherStep_full {b : Bindings} {c : Criteria} {df : List Row}
    {ws : List String} (h : c.selectedWeather = some ws)
    (hall : ∀ r ∈ df, ∃ w, r.weather = some w ∧ w ∈ ws) :
    weatherStep b c df = df := by
  simp only [weatherStep, h]
  split
  · apply filter_eq_self_of_mem
    intro r hr
    obtain ⟨w, hw, hmem⟩ := hall r hr
    rw [hw]
    simpa using hmem
  · rfl

/-- Counterexample to C1 as stated: with a bound weather field and an
empty weather selection, the filtered view of a one-row dataset is the
full dataset (the mask is skipped), not zero rows. -/
theorem weather_empty_selection_counterexample :
    filterEngine ⟨false, true, false, false⟩
        ⟨"All", some [], none, (0, 500)⟩
        [⟨none, some "Sunny", none, none⟩] =
      [⟨none, some "Sunny", none, none⟩] ∧
    [(⟨none, some "Sunny", none, none⟩ : Row)] ≠ [] := by decide

/-- C1 amended: when a weather field is bound, an empty weather-category
selection imposes no restriction (the Python truthiness test skips the
mask), and a selection covering all weather values present imposes no
restriction on rows whose weather value is non-missing: in both cases
the filter pass equals the pass with no weather selection at all. -/
theorem filterEngine_weather_selection :
    (∀ (b : Bindings) (c : Criteria) (df : List Row),
      c.selectedWeather = some [] →
      filterEngine b c df =
        filterEngine b { c with selectedWeather := none } df) ∧
    (∀ (b : Bindings) (c : Criteria) (df : List Row) (ws : List String),
      c.selectedWeather = some ws →
      (∀ r ∈ df, ∃ w, r.weather = some w ∧ w ∈ ws) →
      filterEngine b c df =
        filterEngine b { c with selectedWeather := none } df) := by
  constructor
  · intro b c df h
    unfold filterEngine
    rw [weatherStep_empty h,
      weatherStep_none (c := { c with selectedWeather := none }) rfl]
    rfl
  · intro b c df ws h hall
    unfold filterEngine
    rw [weatherStep_none (c := { c with selectedWeather := none }) rfl,
      weatherStep_full h
        (fun r hr => hall r ((cityStep_sublist b c df).subset hr))]
    rfl

/-- Witness for C1 (amended) at concrete inputs: an empty selection and
a full selection each coincide with the unrestricted pass. -/
theorem filterEngine_weather_selection_witness :
    filterEngine ⟨false, true, false, false⟩
        ⟨"All", some [], none, (0, 500)⟩
        [⟨none, some "Sunny", none, none⟩] =
      filterEngine ⟨false, true, false, false⟩
        ⟨"All", none, none, (0, 500)⟩
        [⟨none, some "Sunny", none, none⟩] ∧
    filterEngine ⟨false, true, false, false⟩
        ⟨"All", some ["Sunny"], none, (0, 500)⟩
        [⟨none, some "Sunny", none, none⟩] =
      filterEngine ⟨false, true, false, false⟩
        ⟨"All", none, none, (0, 500)⟩
        [⟨none, some "Sunny", none, none⟩] :=
  ⟨filterEngine_weather_selection.1 _ _ _ rfl,
    filterEngine_weather_selection.2 _ _ _ ["Sunny"] rfl
      (by
        intro r hr
        simp only [List.mem_singleton] at hr
        subst hr
        exact ⟨"Sunny", rfl, by simp⟩)⟩

/-! ## AQI range filter (C2) -/

/-- Counterexample to C2 as stated: with the AQI field bound, range
[0,500] and no other restriction, a row whose AQI is missing is dropped
(NaN fails both slider comparisons), so the output is not the full
canonical dataset. -/
theorem aqi_full_range_counterexample :
    filterEngine ⟨false, false, false, true⟩ ⟨"All", none, none, (0, 500)⟩
        [⟨none, none, none, some 45⟩, ⟨none, none, none, none⟩] =
      [⟨none, none, none, some 45⟩] ∧
    [(⟨none, none, none, some 45⟩ : Row)] ≠
      [⟨none, none, none, some 45⟩, ⟨none, none, none, none⟩] := by decide

/-- C2 amended: with AQI range [0,500] and no other restriction
(city = "All", no weather selection, no date range), the filter pass
returns exactly the rows whose AQI value is present and within [0,500],
in the original row order; in particular it returns the full canonical
dataset unchanged whenever every row has a present AQI value in
[0,500] — but rows with a missing AQI value are dropped. -/
theorem filterEngine_full_aqi_range
    (b : Bindings) (c : Criteria) (df : List Row)
    (hcity : c.selectedCity = "All")
    (hweather : c.selectedWeather = none)
    (hdate : c.dateRange = none)
    (haqi : b.aqiBound = true)
    (hrange : c.aqiRange = (0, 500)) :
    filterEngine b c df =
      df.filter (fun r =>
        match r.aqi with
        | some a => decide (0 ≤ a) && decide (a ≤ 500)
        | none => false) ∧
    ((∀ r ∈ df, ∃ a, r.aqi = some a ∧ 0 ≤ a ∧ a ≤ 500) →
      filterEngine b c df = df) := by
  have hmain : filterEngine b c df =
      df.filter (fun r =>
        match r.aqi with
        | some a => decide (0 ≤ a) && decide (a ≤ 500)
        | none => false) := by
    unfold filterEngine cityStep
    rw [if_neg (by simp [hcity]), weatherStep_none hweather]
    unfold dateStep
    rw [hdate]
    simp [aqiStep, haqi, hrange]
  refine ⟨hmain, fun hall => ?_⟩
  rw [hmain]
  apply filter_eq_self_of_mem
  intro r hr
  obtain ⟨a, ha, h0, h5⟩ := hall r hr
  rw [ha]
  simp [h0, h5]

/-- Witness for C2 (amended): a dataset whose AQI values are all present
and in range passes through unchanged, and the filtered view is the AQI
mask of the input. -/
theorem filterEngine_full_aqi_range_witness :
    filterEngine ⟨false, false, false, true⟩ ⟨"All", none, none, (0, 500)⟩
        [⟨none, none, none, some 45⟩, ⟨none, none, none, some 220⟩] =
      [⟨none, none, none, some 45⟩, ⟨none, none, none, some 220⟩] :=
  (filterEngine_full_aqi_range ⟨false, false, false, true⟩
      ⟨"All", none, none, (0, 500)⟩
      [⟨none, none, none, some 45⟩, ⟨none, none, none, some 220⟩]
      rfl rfl rfl rfl rfl).2
    (by
      intro r hr
      simp only [List.mem_cons, List.mem_singleton] at hr
      rcases hr with hr | hr | hr <;> first
        | (subst hr; exact ⟨45, rfl, by norm_num⟩)
        | (subst hr; exact ⟨220, rfl, by norm_num⟩)
        | exact absurd hr (by simp))

/-! ## Date filter on an all-missing timestamp column (C4) -/

/-- Counterexample to C4 as stated: a dataset whose timestamp values
all failed parsing (all NaT) but whose timestamp column name is still
bound, with a date range selected, yields an empty filtered view — the
date filter is applied to the all-missing column, not skipped (skipping
would return the full one-row dataset). -/
theorem date_filter_unparsable_counterexample :
    filterEngine ⟨false, false, true, false⟩
        ⟨"All", none, some (0, 100), (0, 500)⟩
        [⟨none, none, none, some 45⟩] = [] ∧
    [(⟨none, none, none, some 45⟩ : Row)] ≠ [] := by decide

/-- C4 amended: after `pd.to_datetime(..., errors='coerce')` on an
entirely unparsable column every timestamp is missing, but the field
remains bound (the column-name string is still truthy), so the date
filter is applied rather than skipped: every row fails the range
comparison against its missing timestamp and the filtered view is
empty. -/
theorem filterEngine_all_missing_ts_empty
    (b : Bindings) (c : Criteria) (df : List Row) (s e : ℚ)
    (hbound : b.tsBound = true)
    (hrange : c.dateRange = some (s, e))
    (hmiss : ∀ r ∈ df, r.ts = none) :
    filterEngine b c df = [] := by
  unfold filterEngine
  have hdate : dateStep b c (weatherStep b c (cityStep b c df)) = [] := by
    simp only [dateStep, hrange, hbound, if_true]
    rw [List.filter_eq_nil_iff]
    intro r hr
    have hts : r.ts = none :=
      hmiss r ((cityStep_sublist b c df).subset
        ((weatherStep_sublist b c _).subset hr))
    simp [hts]
  rw [hdate]
  simp [aqiStep]

/-- Witness for C4 (amended): a two-row dataset with only missing
timestamps filters to the empty view once a date range is applied. -/
theorem filterEngine_all_missing_ts_empty_witness :
    filterEngine ⟨true, false, true, true⟩
        ⟨"All", none, some (0, 100), (0, 500)⟩
        [⟨some "Delhi", none, none, some 45⟩,
         ⟨some "Mumbai", none, none, some 220⟩] = [] :=
  filterEngine_all_missing_ts_empty ⟨true, false, true, true⟩
    ⟨"All", none, some (0, 100), (0, 500)⟩
    [⟨some "Delhi", none, none, some 45⟩,
     ⟨some "Mumbai", none, none, some 220⟩] 0 100 rfl rfl
    (by intro r hr; simp only [List.mem_cons, List.mem_singleton] at hr;
        rcases hr with hr | hr | hr <;> simp_all)

/-! ## Geo enrichment (C6) -/

/-- C6: in geo enrichment, a record whose city's first
whitespace-delimited token is a known city (a hit in `city_coords`)
receives a coordinate within the jitter radius (±0.02 degrees per axis)
of that city's reference point, and a record with an unknown city token
receives missing values on both axes — never the coordinate (0,0). -/
theorem geoCoord_known_or_missing (city : String) (jlat jlon : ℚ)
    (hjlat : |jlat| ≤ 0.02) (hjlon : |jlon| ≤ 0.02) :
    (∀ nm la lo,
      city_coords.find? (fun p => p.1 == firstToken city) =
        some (nm, la, lo) →
      ∃ la2 lo2, geoCoord city jlat jlon = (some la2, some lo2) ∧
        |la2 - la| ≤ 0.02 ∧ |lo2 - lo| ≤ 0.02) ∧
    (city_coords.find? (fun p => p.1 == firstToken city) = none →
      geoCoord city jlat jlon = (none, none)) := by
  constructor
  · intro nm la lo hfind
    have hmem : (nm, la, lo) ∈ city_coords :=
      List.mem_of_find?_eq_some hfind
    have hne : ((la, lo) : ℚ × ℚ) ≠ ((0 : ℚ), (0 : ℚ)) := by
      simp only [city_coords, List.mem_cons, List.mem_singleton,
        Prod.mk.injEq, List.not_mem_nil, or_false] at hmem
      rcases hmem with h | h | h | h | h <;>
        · obtain ⟨-, h1, -⟩ := h
          subst h1
          simp only [ne_eq, Prod.mk.injEq, not_and]
          intro h0
          norm_num at h0
    refine ⟨la + jlat, lo + jlon, ?_, ?_, ?_⟩
    · simp only [geoCoord, hfind, Option.map_some', Option.getD_some]
      rw [if_neg hne]
    · rw [add_sub_cancel_left]; exact hjlat
    · rw [add_sub_cancel_left]; exact hjlon
  · intro hfind
    unfold geoCoord
    rw [hfind]
    simp

/-- Witness for C6: a known city ("Delhi Sensor-3") gets a jittered
coordinate near Delhi's reference point; an unknown city ("Atlantis")
gets missing coordinates. -/
theorem geoCoord_known_or_missing_witness :
    (∃ la2 lo2,
      geoCoord "Delhi Sensor-3" 0.01 (-0.015) = (some la2, some lo2) ∧
      |la2 - 28.7041| ≤ 0.02 ∧ |lo2 - 77.1025| ≤ 0.02) ∧
    geoCoord "Atlantis" 0.01 (-0.015) = (none, none) :=
  ⟨(geoCoord_known_or_missing "Delhi Sensor-3" 0.01 (-0.015)
      (by rw [abs_le]; constructor <;> norm_num)
      (by rw [abs_le]; constructor <;> norm_num)).1
    "Delhi" 28.7041 77.1025
    (by unfold city_coords; exact List.find?_cons_of_pos _ (by decide)),
   (geoCoord_known_or_missing "Atlantis" 0.01 (-0.015)
      (by rw [abs_le]; constructor <;> norm_num)
      (by rw [abs_le]; constructor <;> norm_num)).2
    (by
      rw [List.find?_eq_none]
      intro p hp
      simp only [city_coords, List.mem_cons, List.not_mem_nil,
        or_false] at hp
      rcases hp with h | h | h | h | h <;> subst h <;> decide)⟩

/-! ## Hazardous-AQI alert (C10) -/

/-- C10: the hazardous-AQI alert is shown exactly when the current AQI —
the truncated last non-missing AQI value of the filtered view — is
strictly greater than 200; that threshold does not coincide with the
"Hazardous" band: every current AQI value in (200, 300] is labelled
"Very Unhealthy" by the classifier, yet also triggers the alert. -/
theorem alert_iff_current_above_200 :
    (∀ (b : Bindings) (df : List Row),
      alertShown b df = true ↔
        ∃ a, currentAqi b df = some a ∧ 200 < a) ∧
    (∀ a : ℤ, 200 < a → a ≤ 300 →
      (aqi_status (a : ℚ)).1 = "Very Unhealthy" ∧
      ∀ (b : Bindings) (df : List Row),
        currentAqi b df = some a → alertShown b df = true) := by
  constructor
  · intro b df
    unfold alertShown
    cases hc : currentAqi b df with
    | none => simp
    | some a => simp
  · intro a h1 h2
    constructor
    · have h50 : ¬((a : ℚ) ≤ 50) := by
        rw [not_le]
        exact_mod_cast lt_trans (by norm_num : (50 : ℤ) < 200) h1
      have h100 : ¬((a : ℚ) ≤ 100) := by
        rw [not_le]
        exact_mod_cast lt_trans (by norm_num : (100 : ℤ) < 200) h1
      have h200 : ¬((a : ℚ) ≤ 200) := by
        rw [not_le]
        exact_mod_cast h1
      have h300 : (a : ℚ) ≤ 300 := by exact_mod_cast h2
      unfold aqi_status
      rw [if_neg h50, if_neg h100, if_neg h200, if_pos h300]
    · intro b df hc
      unfold alertShown
      rw [hc]
      simpa using h1

/-- Witness for C10 at the concrete current AQI 250 and a one-row
filtered view whose last non-missing AQI value is 250. -/
theorem alert_iff_current_above_200_witness :
    (aqi_status ((250 : ℤ) : ℚ)).1 = "Very Unhealthy" ∧
    alertShown ⟨false, false, false, true⟩
      [⟨none, none, none, some 250⟩] = true :=
  ⟨(alert_iff_current_above_200.2 250 (by norm_num) (by norm_num)).1,
    (alert_iff_current_above_200.2 250 (by norm_num) (by norm_num)).2
      ⟨false, false, false, true⟩ [⟨none, none, none, some 250⟩]
      (by
        unfold currentAqi ratTrunc
        norm_num)⟩
